import Mathlib

/-!
Shallow embedding of the frame-orchestration and GPU-buffer-synchronization
core of a Vulkan raytracing demo (Rust sources under src/).

Modelling conventions:
* Rust f32 values are only ever stored and copied by the code under study
  (never computed with), so they are modelled as exact rationals.
* usize and u32 become Nat; i32 becomes Int.
* GPU buffers become records with an allocation identity, a capacity in
  records, and a list of optionally-initialized record slots.
* Rust panics (unwrap / expect / panic!) become Option.none results:
  the process terminates instead of returning.
* Mapped-write attempts on a GPU buffer can fail at runtime; this external
  outcome is modelled by an oracle indexed by the running attempt count.
* Wall-clock time, winit event plumbing, ImGui, the camera matrix math and
  the shader bytecode are outside the claims and are not modelled.
-/

namespace RayDemo

/-- Three f32 components, carried by value only. -/
abbrev Vec3 := Rat × Rat × Rat

/-- src/app/material.rs: struct Material. -/
structure Material where
  index : Nat
  dirty : Bool
  color : Vec3
  emission : Vec3
  smoothness : Rat
deriving DecidableEq

/-- usize::MAX for the 64-bit targets this demo builds on. -/
def usizeMax : Nat := 2 ^ 64 - 1

/-- src/app/material.rs: Material::new. -/
def Material.new : Material :=
  { index := usizeMax
    dirty := true
    color := (1, 1, 1)
    emission := (0, 0, 0)
    smoothness := 1 / 2 }

/-- src/app/material.rs: Material::mark_dirty. -/
def Material.mark_dirty (m : Material) : Material :=
  { m with dirty := true }

/-- The GPU-side record produced by shaders (shader::raytrace::fs::Material). -/
structure ShaderMaterial where
  color : Vec3
  emission : Vec3
  smoothness : Rat
deriving DecidableEq

/-- src/app/material.rs: the Into conversion to the shader record
(drops index and dirty). -/
def Material.toShader (m : Material) : ShaderMaterial :=
  { color := m.color, emission := m.emission, smoothness := m.smoothness }

/-- src/app/geom.rs: struct Circle. -/
structure Circle where
  index : Nat
  dirty : Bool
  position : Vec3
  radius : Rat
  material : Int
deriving DecidableEq

/-- src/app/geom.rs: Circle::new. -/
def Circle.new : Circle :=
  { index := usizeMax
    dirty := true
    position := (0, 0, 0)
    radius := 1
    material := 0 }

/-- src/app/geom.rs: Circle::mark_dirty. -/
def Circle.mark_dirty (c : Circle) : Circle :=
  { c with dirty := true }

/-- The GPU-side record (shader::raytrace::fs::Circle). -/
structure ShaderCircle where
  position : Vec3
  radius : Rat
  material : Int
deriving DecidableEq

/-- src/app/geom.rs: the Into conversion to the shader record. -/
def Circle.toShader (c : Circle) : ShaderCircle :=
  { position := c.position, radius := c.radius, material := c.material }

/-- src/app/app.rs: struct Scene. The camera is pure per-frame matrix math
consumed by the uniform upload and is not modelled. -/
structure Scene where
  all_materials : List Material
  all_circles : List Circle
  sample_count : Nat
  current_view : Int
  kernel_size : Int
  kernel_offset : Int
  denoiser_albedo_weight : Rat
  denoiser_normal_weight : Rat
  denoiser_depth_weight : Rat
deriving DecidableEq

/-- Scene with Rust Default values for every field (derive(Default)). -/
def Scene.empty : Scene :=
  { all_materials := []
    all_circles := []
    sample_count := 0
    current_view := 0
    kernel_size := 0
    kernel_offset := 0
    denoiser_albedo_weight := 0
    denoiser_normal_weight := 0
    denoiser_depth_weight := 0 }

/-- shader::denoiser::fs::RenderInfo, the composite/denoiser uniform block. -/
structure DenoiserRenderInfo where
  selected_view : Int
  kernel_size : Int
  kernel_offset : Int
  albedo_weight : Rat
  normal_weight : Rat
  depth_weight : Rat
deriving DecidableEq

/-- src/app/app.rs lines 499-511: the denoiser RenderInfo block written each
frame inside main_loop; kernel_offset goes through max(1, _). -/
def denoiserRenderInfo (s : Scene) : DenoiserRenderInfo :=
  { selected_view := s.current_view
    kernel_size := s.kernel_size
    kernel_offset := max 1 s.kernel_offset
    albedo_weight := s.denoiser_albedo_weight
    normal_weight := s.denoiser_normal_weight
    depth_weight := s.denoiser_depth_weight }

/-- src/app/app.rs: App::add_circle. Pushes Circle::new, re-borrows the slot
just pushed, assigns its index, evaluates the no-op expression reading the
dirty field, and returns the handle (modelled as the slot position). The
unreachable arm mirrors the get_mut(index).unwrap() panic. -/
def Scene.add_circle (s : Scene) : Scene × Nat :=
  let index := s.all_circles.length
  let cs := s.all_circles ++ [Circle.new]
  match cs[index]? with
  | some c =>
      let c2 := { c with index := index }
      let _ := c2.dirty
      ({ s with all_circles := cs.set index c2 }, index)
  | none => ({ s with all_circles := cs }, index)

/-- src/app/app.rs: App::add_material, same shape as add_circle. -/
def Scene.add_material (s : Scene) : Scene × Nat :=
  let index := s.all_materials.length
  let ms := s.all_materials ++ [Material.new]
  match ms[index]? with
  | some m =>
      let m2 := { m with index := index }
      let _ := m2.dirty
      ({ s with all_materials := ms.set index m2 }, index)
  | none => ({ s with all_materials := ms }, index)

/-- A scene-authoring call, for reasoning about arbitrary call sequences. -/
inductive SceneOp where
  | addMaterial
  | addCircle
deriving DecidableEq

def Scene.applyOp (s : Scene) : SceneOp → Scene
  | .addMaterial => s.add_material.1
  | .addCircle => s.add_circle.1

def Scene.applyOps (s : Scene) : List SceneOp → Scene
  | [] => s
  | op :: ops => (s.applyOp op).applyOps ops

/-- Every entry's index field equals its position in its owning collection. -/
def Scene.indexInv (s : Scene) : Prop :=
  (∀ (i : Nat) (m : Material), s.all_materials[i]? = some m → m.index = i) ∧
  (∀ (i : Nat) (c : Circle), s.all_circles[i]? = some c → c.index = i)

/-- A GPU storage allocation sized for exactly capacity records. The id is
the allocation identity (replaced buffers get a fresh id); slots start
uninitialized, mirroring SubbufferAllocator::allocate_unsized. -/
structure GpuBuffer (α : Type) where
  id : Nat
  capacity : Nat
  data : List (Option α)
deriving DecidableEq

/-- The geometry descriptor set: which buffer allocation is bound at slot 0
(materials) and slot 1 (circles); a slot is absent when the corresponding
buffer option was None at build time. -/
structure GeomSet where
  material_binding : Option Nat
  circle_binding : Option Nat
deriving DecidableEq

/-- The fields of src/app/app.rs: struct App that check_buffers and the
scene-authoring calls read or write. next_buffer_id models the allocator:
each allocate_unsized call hands out the next fresh identity. -/
structure AppState where
  scene : Scene
  material_buffer : Option (GpuBuffer ShaderMaterial)
  material_buffer_size : Nat
  circle_buffer : Option (GpuBuffer ShaderCircle)
  circle_buffer_size : Nat
  geom_set : Option GeomSet
  next_buffer_id : Nat
deriving DecidableEq

/-- App state as built by App::create before any scene authoring:
no buffers, sizes 0, no geometry descriptor set. -/
def AppState.create (s : Scene) : AppState :=
  { scene := s
    material_buffer := none
    material_buffer_size := 0
    circle_buffer := none
    circle_buffer_size := 0
    geom_set := none
    next_buffer_id := 0 }

/-- The locals of one check_buffers run threaded through both collections:
the App fields, the running count of mapped-write attempts (the index the
write-outcome oracle is consulted at), the number of record writes
performed, and the update_descriptors local. -/
structure SyncSt where
  app : AppState
  attempts : Nat
  writes : Nat
  update_descriptors : Bool
deriving DecidableEq

/-- src/app/app.rs lines 242-248: the first recreate_buffer closure.
Allocates a fresh buffer of material_buffer_size records, marks every
material dirty, and raises update_descriptors. -/
def recreate_material_buffer (st : SyncSt) : SyncSt :=
  { st with
    app := { st.app with
      material_buffer := some
        { id := st.app.next_buffer_id
          capacity := st.app.material_buffer_size
          data := List.replicate st.app.material_buffer_size none }
      next_buffer_id := st.app.next_buffer_id + 1
      scene := { st.app.scene with
        all_materials := st.app.scene.all_materials.map
          (fun m => { m with dirty := true }) } }
    update_descriptors := true }

/-- src/app/app.rs lines 275-281: the second recreate_buffer closure,
for circles. -/
def recreate_circle_buffer (st : SyncSt) : SyncSt :=
  { st with
    app := { st.app with
      circle_buffer := some
        { id := st.app.next_buffer_id
          capacity := st.app.circle_buffer_size
          data := List.replicate st.app.circle_buffer_size none }
      next_buffer_id := st.app.next_buffer_id + 1
      scene := { st.app.scene with
        all_circles := st.app.scene.all_circles.map
          (fun c => { c with dirty := true }) } }
    update_descriptors := true }

/-- src/app/app.rs lines 255-273: one iteration of the material loop at
index i. Copies the record, and when it is dirty: clears the stored flag,
attempts a mapped write (consulting wOk at the current attempt count); on
failure recreates the buffer (re-marking everything dirty, record i
included) and retries, where a failed retry is the unwrap panic. -/
def mat_step (wOk : Nat → Bool) (i : Nat) (st : SyncSt) : Option SyncSt :=
  match st.app.scene.all_materials[i]? with
  | none => none
  | some m =>
    if m.dirty then
      let st1 := { st with app := { st.app with scene := { st.app.scene with
        all_materials := st.app.scene.all_materials.set i { m with dirty := false } } } }
      match st1.app.material_buffer with
      | none => none
      | some b =>
        if wOk st1.attempts then
          some { st1 with
            app := { st1.app with
              material_buffer := some { b with data := b.data.set i (some m.toShader) } }
            attempts := st1.attempts + 1
            writes := st1.writes + 1 }
        else
          let st2 := recreate_material_buffer { st1 with attempts := st1.attempts + 1 }
          match st2.app.material_buffer with
          | none => none
          | some b2 =>
            if wOk st2.attempts then
              some { st2 with
                app := { st2.app with
                  material_buffer := some { b2 with data := b2.data.set i (some m.toShader) } }
                attempts := st2.attempts + 1
                writes := st2.writes + 1 }
            else none
    else some st

/-- src/app/app.rs lines 289-307: one iteration of the circle loop. -/
def circ_step (wOk : Nat → Bool) (i : Nat) (st : SyncSt) : Option SyncSt :=
  match st.app.scene.all_circles[i]? with
  | none => none
  | some c =>
    if c.dirty then
      let st1 := { st with app := { st.app with scene := { st.app.scene with
        all_circles := st.app.scene.all_circles.set i { c with dirty := false } } } }
      match st1.app.circle_buffer with
      | none => none
      | some b =>
        if wOk st1.attempts then
          some { st1 with
            app := { st1.app with
              circle_buffer := some { b with data := b.data.set i (some c.toShader) } }
            attempts := st1.attempts + 1
            writes := st1.writes + 1 }
        else
          let st2 := recreate_circle_buffer { st1 with attempts := st1.attempts + 1 }
          match st2.app.circle_buffer with
          | none => none
          | some b2 =>
            if wOk st2.attempts then
              some { st2 with
                app := { st2.app with
                  circle_buffer := some { b2 with data := b2.data.set i (some c.toShader) } }
                attempts := st2.attempts + 1
                writes := st2.writes + 1 }
            else none
    else some st

/-- Runs a per-index loop body over the given indices, propagating panic. -/
def run_sync (step : Nat → SyncSt → Option SyncSt) : List Nat → SyncSt → Option SyncSt
  | [], st => some st
  | i :: rest, st => (step i st).bind (run_sync step rest)

/-- src/app/app.rs lines 309-327: the geometry descriptor set built from the
current buffers (slot 0: materials, when present; slot 1: circles). -/
def build_geom_set (s : AppState) : GeomSet :=
  { material_binding := s.material_buffer.map GpuBuffer.id
    circle_binding := s.circle_buffer.map GpuBuffer.id }

/-- src/app/app.rs lines 239-329: App::check_buffers. For each collection:
if the length drifted from the stored buffer size, store the new size and
recreate the buffer; then walk every index, writing dirty records. At the
end, if any buffer identity changed and the pipeline has a geometry set
layout, rebuild the geometry descriptor set binding the current material
buffer at slot 0 and circle buffer at slot 1. Returns the new App fields
and the number of record writes performed. -/
def check_buffers (wOk : Nat → Bool) (has_geom_layout : Bool) (s : AppState) :
    Option (AppState × Nat) :=
  let st0 : SyncSt := { app := s, attempts := 0, writes := 0, update_descriptors := false }
  let st1 :=
    if s.scene.all_materials.length ≠ s.material_buffer_size then
      recreate_material_buffer
        { st0 with app := { s with material_buffer_size := s.scene.all_materials.length } }
    else st0
  (run_sync (mat_step wOk) (List.range st1.app.scene.all_materials.length) st1).bind
    (fun st2 =>
      let st3 :=
        if st2.app.scene.all_circles.length ≠ st2.app.circle_buffer_size then
          recreate_circle_buffer
            { st2 with app :=
              { st2.app with circle_buffer_size := st2.app.scene.all_circles.length } }
        else st2
      (run_sync (circ_step wOk) (List.range st3.app.scene.all_circles.length) st3).bind
        (fun st4 =>
          let result :=
            if st4.update_descriptors && has_geom_layout then
              { st4.app with geom_set := some (build_geom_set st4.app) }
            else st4.app
          some (result, st4.writes)))

/-- The write-outcome oracle describing runs where every mapped write
succeeds (no buffer is mid-replacement). -/
def writes_ok : Nat → Bool := fun _ => true

/-- Well-formedness of the buffer slots that App::create establishes and
check_buffers relies on: a present buffer was allocated for exactly the
stored size by a past allocator call, and an absent buffer means nothing
was ever stored (size 0). -/
def AppState.buffers_wf (s : AppState) : Prop :=
  (∀ b, s.material_buffer = some b →
    b.capacity = s.material_buffer_size ∧
    b.data.length = s.material_buffer_size ∧
    b.id < s.next_buffer_id) ∧
  (s.material_buffer = none → s.material_buffer_size = 0) ∧
  (∀ b, s.circle_buffer = some b →
    b.capacity = s.circle_buffer_size ∧
    b.data.length = s.circle_buffer_size ∧
    b.id < s.next_buffer_id) ∧
  (s.circle_buffer = none → s.circle_buffer_size = 0)

/-- A sample authored App state: one default material whose index was
assigned, nothing synchronized yet. -/
def oneMaterialApp : AppState :=
  AppState.create { Scene.empty with all_materials := [{ Material.new with index := 0 }] }

/-- A sample authored App state with one material and one circle. -/
def oneEachApp : AppState :=
  AppState.create { Scene.empty with
    all_materials := [{ Material.new with index := 0 }]
    all_circles := [{ Circle.new with index := 0 }] }

/-- The App state oneMaterialApp reaches after one check_buffers run in
which every write succeeds: buffer allocated for exactly one record, the
record written, the dirty flag cleared, the geometry set bound. -/
def oneMaterialSynced : AppState :=
  { scene := { Scene.empty with
      all_materials := [{ index := 0
                          dirty := false
                          color := (1, 1, 1)
                          emission := (0, 0, 0)
                          smoothness := 1 / 2 }] }
    material_buffer := some
      { id := 0
        capacity := 1
        data := [some { color := (1, 1, 1), emission := (0, 0, 0), smoothness := 1 / 2 }] }
    material_buffer_size := 1
    circle_buffer := none
    circle_buffer_size := 0
    geom_set := some { material_binding := some 0, circle_binding := none }
    next_buffer_id := 1 }

/-- The shape of the GPU completion signal held in previous_frame_end:
how the handle was produced. now is sync::now (the no-op signal);
uploadDone is the startup upload submission; offscreenFence is the
then_signal_fence_and_flush of the offscreen submission chained after the
previous signal; presentFence is the composite submission joined with the
acquired-image signal, presented and fenced. -/
inductive GpuFuture where
  | now
  | uploadDone
  | offscreenFence (prev : GpuFuture)
  | presentFence (prev : GpuFuture) (acquired_image : Nat)
deriving DecidableEq

/-- src/vk/vk.rs: the mutable fields of struct Vk that the frame timeline
touches. The swapchain is its identity (a fresh value per recreation),
images are the presentable image identities, and buffers the per-image
framebuffer set derived from them (None until setup_framebuffer runs). -/
structure VkState where
  swapchain : Nat
  images : List Nat
  buffers : Option (List Nat)
  previous_frame_end : Option GpuFuture
  should_recreate_swapchain : Bool
  acquire_future : Option Nat
  current_image_index : Nat
deriving DecidableEq

/-- src/vk/vk.rs: DrawStatus. -/
inductive DrawStatus where
  | Ok
  | ShouldRecreateSwapchain
deriving DecidableEq

/-- The offscreen-pass recording handle returned by begin_frame; it records
against the framebuffer of the acquired image. -/
structure Recording where
  image_index : Nat
deriving DecidableEq

/-- Outcome of the platform acquire_next_image call with its bounded
one-second wait: success (with the suboptimal indicator), the out-of-date
surface condition, the timeout being exceeded, or any other error. -/
inductive AcquireResult where
  | success (image_index : Nat) (suboptimal : Bool)
  | outOfDate
  | timeout
  | otherError
deriving DecidableEq

/-- Outcome of building, submitting, presenting and fencing the composite
command buffer (then_signal_fence_and_flush at the end of end_frame). -/
inductive FlushResult where
  | ok
  | outOfDate
  | otherError
deriving DecidableEq

/-- Outcome of the platform Swapchain::recreate call. -/
inductive SwapchainRecreateResult where
  | success (new_swapchain : Nat) (new_images : List Nat)
  | extentNotSupported
  | creationFailed
deriving DecidableEq

/-- src/vk/vk.rs lines 310-336: the Vk value returned by create_device:
previous_frame_end starts as the no-op sync::now signal, no pending
recreate, nothing acquired, framebuffers not yet set up. -/
def Vk.create_device (swapchain : Nat) (images : List Nat) : VkState :=
  { swapchain := swapchain
    images := images
    buffers := none
    previous_frame_end := some .now
    should_recreate_swapchain := false
    acquire_future := none
    current_image_index := 0 }

/-- src/vk/vk.rs lines 361-444: setup_framebuffer derives one framebuffer
set per swapchain image, wholesale. -/
def Vk.setup_framebuffer (st : VkState) : VkState :=
  { st with buffers := some st.images }

/-- src/vk/vk.rs lines 446-461: recreate_swapchain. An unsupported-extent
failure returns early keeping the whole old state; any other creation
failure is the panic! (modelled none: the process terminates with a
diagnostic); success installs the new chain and reruns setup_framebuffer. -/
def Vk.recreate_swapchain (st : VkState) : SwapchainRecreateResult → Option VkState
  | .extentNotSupported => some st
  | .creationFailed => none
  | .success sc imgs =>
      some (Vk.setup_framebuffer { st with swapchain := sc, images := imgs })

/-- src/vk/vk.rs lines 463-465: wait_frame unwraps previous_frame_end and
runs the non-blocking cleanup (no observable state change here). -/
def Vk.wait_frame (st : VkState) : Option VkState :=
  match st.previous_frame_end with
  | none => none
  | some _ => some st

/-- src/vk/vk.rs lines 467-479: do_upload replaces previous_frame_end with
the startup upload submission. The one-shot uploads builder itself is not
modelled. -/
def Vk.do_upload (st : VkState) : Option VkState :=
  match Vk.wait_frame st with
  | none => none
  | some st1 => some { st1 with previous_frame_end := some .uploadDone }

/-- src/vk/vk.rs lines 481-520: begin_frame. Out-of-date sets the pending
recreate flag and skips the frame; timeout and any other acquire error log
and skip the frame leaving all state untouched; success overwrites the
pending flag with the suboptimal indicator, stores the acquired-image
signal and index, and begins the offscreen pass against that image's
framebuffer (the buffers unwrap and the indexing are the panics). -/
def Vk.begin_frame (st : VkState) : AcquireResult → Option (VkState × Option Recording)
  | .outOfDate => some ({ st with should_recreate_swapchain := true }, none)
  | .timeout => some (st, none)
  | .otherError => some (st, none)
  | .success idx subopt =>
    match st.buffers with
    | none => none
    | some fbs =>
      if idx < fbs.length then
        some ({ st with
                  should_recreate_swapchain := subopt
                  acquire_future := some idx
                  current_image_index := idx },
              some { image_index := idx })
      else none

/-- src/vk/vk.rs lines 522-564: next_render_pass. Ends and submits the
offscreen pass chained after previous_frame_end, stores the resulting
fence signal as the new previous_frame_end (without joining presentation),
and begins the composite pass against the current image's screen
framebuffer, returning that framebuffer set. -/
def Vk.next_render_pass (st : VkState) : Option (VkState × Nat) :=
  match st.previous_frame_end with
  | none => none
  | some f =>
    match st.buffers with
    | none => none
    | some fbs =>
      match fbs[st.current_image_index]? with
      | none => none
      | some fb =>
        some ({ st with previous_frame_end := some (.offscreenFence f) }, fb)

/-- src/vk/vk.rs lines 566-616: end_frame. With no recording (a skipped
frame) it only reports and consumes the pending recreate flag. With a
recording it joins previous_frame_end with the stored acquired-image
signal, submits, presents and fences; on a stale-surface flush failure it
raises the pending flag and substitutes the no-op sync::now signal, on any
other flush failure it logs and substitutes sync::now; it then reports
ShouldRecreateSwapchain (consuming the flag) or Ok. -/
def Vk.end_frame (st : VkState) (rec : Option Recording) (flush : FlushResult) :
    Option (VkState × DrawStatus) :=
  match rec with
  | none =>
    match st.should_recreate_swapchain with
    | true => some ({ st with should_recreate_swapchain := false }, .ShouldRecreateSwapchain)
    | false => some (st, .Ok)
  | some _ =>
    match st.previous_frame_end with
    | none => none
    | some f =>
      match st.acquire_future with
      | none => none
      | some acq =>
        let st1 := { st with acquire_future := none }
        let st2 :=
          match flush with
          | .ok => { st1 with previous_frame_end := some (.presentFence f acq) }
          | .outOfDate => { st1 with
              should_recreate_swapchain := true
              previous_frame_end := some .now }
          | .otherError => { st1 with previous_frame_end := some .now }
        if st2.should_recreate_swapchain then
          some ({ st2 with should_recreate_swapchain := false }, .ShouldRecreateSwapchain)
        else
          some (st2, .Ok)

/-- A public Vk call together with the outcome of its external Vulkan
calls, for reasoning about arbitrary call sequences. -/
inductive VkOp where
  | waitFrame
  | doUpload
  | beginFrame (res : AcquireResult)
  | nextRenderPass
  | endFrame (has_recording : Bool) (flush : FlushResult)
  | recreateSwapchain (res : SwapchainRecreateResult)

/-- State effect of one public call (return values discarded). -/
def Vk.step (st : VkState) : VkOp → Option VkState
  | .waitFrame => Vk.wait_frame st
  | .doUpload => Vk.do_upload st
  | .beginFrame res =>
      match Vk.begin_frame st res with
      | none => none
      | some r => some r.1
  | .nextRenderPass =>
      match Vk.next_render_pass st with
      | none => none
      | some r => some r.1
  | .endFrame hr flush =>
      match Vk.end_frame st
        (if hr then some { image_index := st.current_image_index } else none) flush with
      | none => none
      | some r => some r.1
  | .recreateSwapchain res => Vk.recreate_swapchain st res

/-- Runs a sequence of public calls, stopping at the first panic. -/
def Vk.run (st : VkState) : List VkOp → Option VkState
  | [] => some st
  | op :: ops => (Vk.step st op).bind (fun st1 => Vk.run st1 ops)

/-- Relation between the sync-loop state before and after running the
material loop over the index window [a, a + n) with every write
succeeding: the buffer keeps its identity and size, everything outside the
material collection is untouched, indices outside the window are
untouched, and every index inside the window ends clean, with its record
written exactly when it was dirty. -/
structure MatRunOut (a n : Nat) (st : SyncSt) (b : GpuBuffer ShaderMaterial)
    (st2 : SyncSt) (b2 : GpuBuffer ShaderMaterial) : Prop where
  hbuf : st2.app.material_buffer = some b2
  hid : b2.id = b.id
  hcap : b2.capacity = b.capacity
  hdlen : b2.data.length = b.data.length
  hmlen : st2.app.scene.all_materials.length = st.app.scene.all_materials.length
  hsize : st2.app.material_buffer_size = st.app.material_buffer_size
  hcircs : st2.app.scene.all_circles = st.app.scene.all_circles
  hcbuf : st2.app.circle_buffer = st.app.circle_buffer
  hcsize : st2.app.circle_buffer_size = st.app.circle_buffer_size
  hgeom : st2.app.geom_set = st.app.geom_set
  hnid : st2.app.next_buffer_id = st.app.next_buffer_id
  hupd : st2.update_descriptors = st.update_descriptors
  houtside : ∀ j : Nat, j < a ∨ a + n ≤ j →
    st2.app.scene.all_materials[j]? = st.app.scene.all_materials[j]? ∧
    b2.data[j]? = b.data[j]?
  hinside : ∀ (j : Nat) (m : Material), a ≤ j → j < a + n →
    st.app.scene.all_materials[j]? = some m →
    st2.app.scene.all_materials[j]? = some { m with dirty := false } ∧
    b2.data[j]? = (if m.dirty = true then some (some m.toShader) else b.data[j]?)

/-- Relation between the sync-loop state before and after running the
circle loop over the index window [a, a + n) with every write
succeeding: the buffer keeps its identity and size, everything outside the
material collection is untouched, indices outside the window are
untouched, and every index inside the window ends clean, with its record
written exactly when it was dirty. -/
structure CircRunOut (a n : Nat) (st : SyncSt) (b : GpuBuffer ShaderCircle)
    (st2 : SyncSt) (b2 : GpuBuffer ShaderCircle) : Prop where
  hbuf : st2.app.circle_buffer = some b2
  hid : b2.id = b.id
  hcap : b2.capacity = b.capacity
  hdlen : b2.data.length = b.data.length
  hclen : st2.app.scene.all_circles.length = st.app.scene.all_circles.length
  hsizec : st2.app.material_buffer_size = st.app.material_buffer_size
  hmats : st2.app.scene.all_materials = st.app.scene.all_materials
  hmbuf : st2.app.material_buffer = st.app.material_buffer
  hmsize : st2.app.circle_buffer_size = st.app.circle_buffer_size
  hgeom : st2.app.geom_set = st.app.geom_set
  hnid : st2.app.next_buffer_id = st.app.next_buffer_id
  hupd : st2.update_descriptors = st.update_descriptors
  houtside : ∀ j : Nat, j < a ∨ a + n ≤ j →
    st2.app.scene.all_circles[j]? = st.app.scene.all_circles[j]? ∧
    b2.data[j]? = b.data[j]?
  hinside : ∀ (j : Nat) (c : Circle), a ≤ j → j < a + n →
    st.app.scene.all_circles[j]? = some c →
    st2.app.scene.all_circles[j]? = some { c with dirty := false } ∧
    b2.data[j]? = (if c.dirty = true then some (some c.toShader) else b.data[j]?)

lemma VkState.eta_flag_false (st : VkState) (h : st.should_recreate_swapchain = false) :
    ({ st with should_recreate_swapchain := false } : VkState) = st := by
  obtain ⟨a, b, c, d, e, f, g⟩ := st
  cases h
  rfl

/-- C5: begin_frame on an out-of-date surface sets the pending
recreate-swapchain flag and returns no frame; on the bounded-timeout
error or any other acquisition error it returns no frame with the whole
state (swapchain, flag, frame timeline) untouched; and the subsequent
end_frame with no recording always returns, reporting the pending flag
and clearing it. -/
theorem begin_frame_error_paths (st : VkState) :
    Vk.begin_frame st .outOfDate =
      some ({ st with should_recreate_swapchain := true }, none) ∧
    Vk.begin_frame st .timeout = some (st, none) ∧
    Vk.begin_frame st .otherError = some (st, none) ∧
    (∀ fl, Vk.end_frame st none fl =
      some ({ st with should_recreate_swapchain := false },
        if st.should_recreate_swapchain then .ShouldRecreateSwapchain else .Ok)) := by
  refine ⟨rfl, rfl, rfl, fun fl => ?_⟩
  cases h : st.should_recreate_swapchain with
  | true => simp [Vk.end_frame, h]
  | false => simp [Vk.end_frame, h, VkState.eta_flag_false st h]

/-- C6: when the platform reports the requested extent unsupported,
recreate_swapchain keeps the existing swapchain, images and framebuffers
completely unchanged and returns; any other swapchain-recreation failure
terminates the process (the panic, modelled none). -/
theorem recreate_swapchain_unsupported_extent_noop :
    (∀ st : VkState, Vk.recreate_swapchain st .extentNotSupported = some st) ∧
    (∀ st : VkState, Vk.recreate_swapchain st .creationFailed = none) :=
  ⟨fun _ => rfl, fun _ => rfl⟩

/-- C7: the effective kernel_offset written into the denoiser uniform block
is max 1 (stored value): always at least 1, and exactly 1 for every stored
value that is zero or negative. -/
theorem kernel_offset_clamped :
    (∀ s : Scene, (denoiserRenderInfo s).kernel_offset = max 1 s.kernel_offset ∧
      1 ≤ (denoiserRenderInfo s).kernel_offset) ∧
    (∀ s : Scene, s.kernel_offset ≤ 0 → (denoiserRenderInfo s).kernel_offset = 1) := by
  constructor
  · exact fun s => ⟨rfl, le_max_left 1 s.kernel_offset⟩
  · intro s h
    simp only [denoiserRenderInfo]
    omega

theorem kernel_offset_clamped_witness :
    ({ Scene.empty with kernel_offset := -3 } : Scene).kernel_offset ≤ 0 ∧
    (denoiserRenderInfo { Scene.empty with kernel_offset := -3 }).kernel_offset = 1 :=
  ⟨by decide, kernel_offset_clamped.2 { Scene.empty with kernel_offset := -3 } (by decide)⟩

/-- C9: the entry returned by add_circle / add_material has dirty = true at
the moment the call returns, and this comes from the constructors
(Circle::new / Material::new initialize dirty to true); the trailing
dirty-field expression in the add functions reads and discards the flag
without setting anything. -/
theorem new_entries_start_dirty :
    Circle.new.dirty = true ∧ Material.new.dirty = true ∧
    (∀ s : Scene, ∃ c : Circle,
      s.add_circle.1.all_circles[s.add_circle.2]? = some c ∧ c.dirty = true) ∧
    (∀ s : Scene, ∃ m : Material,
      s.add_material.1.all_materials[s.add_material.2]? = some m ∧ m.dirty = true) := by
  refine ⟨rfl, rfl, fun s => ?_, fun s => ?_⟩
  · refine ⟨{ Circle.new with index := s.all_circles.length }, ?_, rfl⟩
    simp only [Scene.add_circle, List.getElem?_concat_length]
    exact List.getElem?_set_self (by simp)
  · refine ⟨{ Material.new with index := s.all_materials.length }, ?_, rfl⟩
    simp only [Scene.add_material, List.getElem?_concat_length]
    exact List.getElem?_set_self (by simp)

/-- C10: a successful acquire that reports the surface suboptimal
overwrites the pending recreate-swapchain flag with the suboptimal
indicator, and even though recording, submission and present all succeed
(flush outcome ok), that tick's end_frame returns ShouldRecreateSwapchain
and clears the flag. -/
theorem suboptimal_acquire_reports_recreate (st : VkState) (fbs : List Nat) (idx : Nat)
    (f : GpuFuture) (hb : st.buffers = some fbs) (hidx : idx < fbs.length)
    (hf : st.previous_frame_end = some f) :
    (∀ subopt, Vk.begin_frame st (.success idx subopt) =
      some ({ st with
                should_recreate_swapchain := subopt
                acquire_future := some idx
                current_image_index := idx },
            some { image_index := idx })) ∧
    (∃ st1 rec, Vk.begin_frame st (.success idx true) = some (st1, some rec) ∧
      st1.should_recreate_swapchain = true ∧
      ∃ st2, Vk.end_frame st1 (some rec) .ok = some (st2, .ShouldRecreateSwapchain) ∧
        st2.should_recreate_swapchain = false ∧
        st2.previous_frame_end = some (.presentFence f idx)) := by
  have hbegin : ∀ subopt, Vk.begin_frame st (.success idx subopt) =
      some ({ st with
                should_recreate_swapchain := subopt
                acquire_future := some idx
                current_image_index := idx },
            some { image_index := idx }) := by
    intro subopt
    simp [Vk.begin_frame, hb, hidx]
  refine ⟨hbegin, ?_⟩
  refine ⟨_, _, hbegin true, rfl, ?_⟩
  refine ⟨{ st with
             should_recreate_swapchain := false
             acquire_future := none
             current_image_index := idx
             previous_frame_end := some (.presentFence f idx) }, ?_, rfl, rfl⟩
  simp [Vk.end_frame, hf]

theorem suboptimal_acquire_reports_recreate_witness :
    (Vk.setup_framebuffer (Vk.create_device 0 [5, 6])).buffers = some [5, 6] ∧
    1 < ([5, 6] : List Nat).length ∧
    (Vk.setup_framebuffer (Vk.create_device 0 [5, 6])).previous_frame_end = some .now ∧
    (∃ st1 rec,
      Vk.begin_frame (Vk.setup_framebuffer (Vk.create_device 0 [5, 6])) (.success 1 true) =
        some (st1, some rec) ∧
      st1.should_recreate_swapchain = true ∧
      ∃ st2, Vk.end_frame st1 (some rec) .ok = some (st2, .ShouldRecreateSwapchain) ∧
        st2.should_recreate_swapchain = false ∧
        st2.previous_frame_end = some (.presentFence .now 1)) :=
  ⟨rfl, by decide, rfl,
    (suboptimal_acquire_reports_recreate _ [5, 6] 1 .now rfl (by decide) rfl).2⟩

lemma Vk.wait_frame_prev (st st1 : VkState) (h : Vk.wait_frame st = some st1) :
    st1 = st := by
  simp only [Vk.wait_frame] at h
  split at h
  · cases h
  · cases h; rfl

lemma Vk.do_upload_prev (st st1 : VkState) (h : Vk.do_upload st = some st1) :
    st1.previous_frame_end = some .uploadDone := by
  simp only [Vk.do_upload] at h
  split at h
  · cases h
  · cases h; rfl

lemma Vk.begin_frame_prev (st : VkState) (res : AcquireResult)
    (r : VkState × Option Recording) (h : Vk.begin_frame st res = some r) :
    r.1.previous_frame_end = st.previous_frame_end := by
  cases res with
  | success idx subopt =>
    simp only [Vk.begin_frame] at h
    split at h
    · cases h
    · split at h
      · cases h; rfl
      · cases h
  | outOfDate => cases h; rfl
  | timeout => cases h; rfl
  | otherError => cases h; rfl

lemma Vk.next_render_pass_prev (st : VkState) (r : VkState × Nat)
    (h : Vk.next_render_pass st = some r) :
    ∃ f, st.previous_frame_end = some f ∧
      r.1.previous_frame_end = some (.offscreenFence f) := by
  simp only [Vk.next_render_pass] at h
  split at h
  · cases h
  · rename_i f hf
    split at h
    · cases h
    · split at h
      · cases h
      · cases h
        exact ⟨f, hf, rfl⟩

lemma Vk.end_frame_prev (st : VkState) (rec : Option Recording) (fl : FlushResult)
    (r : VkState × DrawStatus) (h : Vk.end_frame st rec fl = some r) :
    r.1.previous_frame_end = st.previous_frame_end ∨
      r.1.previous_frame_end.isSome = true := by
  cases rec with
  | none =>
    simp only [Vk.end_frame] at h
    split at h
    · cases h; exact Or.inl rfl
    · cases h; exact Or.inl rfl
  | some r0 =>
    simp only [Vk.end_frame] at h
    split at h
    · cases h
    · split at h
      · cases h
      · cases fl
        all_goals (
          simp only at h
          split at h
          all_goals (cases h; exact Or.inr rfl))

lemma Vk.recreate_swapchain_prev (st st1 : VkState) (res : SwapchainRecreateResult)
    (h : Vk.recreate_swapchain st res = some st1) :
    st1.previous_frame_end = st.previous_frame_end := by
  cases res with
  | success sc imgs => cases h; rfl
  | extentNotSupported => cases h; rfl
  | creationFailed => cases h

lemma Vk.step_preserves_prev (st st1 : VkState) (op : VkOp)
    (h : Vk.step st op = some st1) (hp : st.previous_frame_end.isSome = true) :
    st1.previous_frame_end.isSome = true := by
  cases op with
  | waitFrame =>
    rw [Vk.wait_frame_prev st st1 h]
    exact hp
  | doUpload =>
    rw [Vk.do_upload_prev st st1 h]
    rfl
  | beginFrame res =>
    simp only [Vk.step] at h
    split at h
    · cases h
    · rename_i r hr
      cases h
      rw [Vk.begin_frame_prev st res r hr]
      exact hp
  | nextRenderPass =>
    simp only [Vk.step] at h
    split at h
    · cases h
    · rename_i r hr
      cases h
      obtain ⟨f, _, h2⟩ := Vk.next_render_pass_prev st r hr
      rw [h2]
      rfl
  | endFrame b fl =>
    simp only [Vk.step] at h
    split at h
    · cases h
    · rename_i r hr
      cases h
      rcases Vk.end_frame_prev st _ fl r hr with heq | hs
      · rw [heq]; exact hp
      · exact hs
  | recreateSwapchain res =>
    rw [Vk.recreate_swapchain_prev st st1 res h]
    exact hp

lemma Vk.run_preserves_prev (ops : List VkOp) :
    ∀ (st st1 : VkState), Vk.run st ops = some st1 →
      st.previous_frame_end.isSome = true → st1.previous_frame_end.isSome = true := by
  induction ops with
  | nil =>
    intro st st1 h hp
    cases h
    exact hp
  | cons op rest ih =>
    intro st st1 h hp
    simp only [Vk.run, Option.bind_eq_some] at h
    obtain ⟨stm, h1, h2⟩ := h
    exact ih stm st1 h2 (Vk.step_preserves_prev st stm op h1 hp)

/-- C4: previous_frame_end is a present, joinable value at every
public-call boundary once the device is created: any sequence of public
calls from the create_device state that does not terminate the process
ends with previous_frame_end present. next_render_pass replaces it with
the offscreen submission's fence signal, and end_frame on a stale-surface
present failure substitutes the no-op sync::now signal while reporting
ShouldRecreateSwapchain. -/
theorem previous_frame_end_always_present :
    (∀ (sc : Nat) (imgs : List Nat) (ops : List VkOp) (stEnd : VkState),
      Vk.run (Vk.create_device sc imgs) ops = some stEnd →
      stEnd.previous_frame_end.isSome = true) ∧
    (∀ (st st1 : VkState) (fb : Nat), Vk.next_render_pass st = some (st1, fb) →
      ∃ f, st.previous_frame_end = some f ∧
        st1.previous_frame_end = some (.offscreenFence f)) ∧
    (∀ (st st2 : VkState) (r0 : Recording) (ds : DrawStatus),
      Vk.end_frame st (some r0) .outOfDate = some (st2, ds) →
      st2.previous_frame_end = some .now ∧ ds = .ShouldRecreateSwapchain) := by
  refine ⟨?_, ?_, ?_⟩
  · intro sc imgs ops stEnd h
    exact Vk.run_preserves_prev ops _ stEnd h rfl
  · intro st st1 fb h
    exact Vk.next_render_pass_prev st (st1, fb) h
  · intro st st2 r0 ds h
    simp only [Vk.end_frame] at h
    split at h
    · cases h
    · split at h
      · cases h
      · cases h
        exact ⟨rfl, rfl⟩

theorem previous_frame_end_always_present_witness :
    Vk.run (Vk.create_device 0 [5])
        [.doUpload, .beginFrame .outOfDate, .endFrame false .ok] =
      some { swapchain := 0, images := [5], buffers := none,
             previous_frame_end := some .uploadDone,
             should_recreate_swapchain := false,
             acquire_future := none, current_image_index := 0 } ∧
    Option.isSome (VkState.previous_frame_end
      { swapchain := 0, images := [5], buffers := none,
        previous_frame_end := some .uploadDone,
        should_recreate_swapchain := false,
        acquire_future := none, current_image_index := 0 }) = true :=
  ⟨by decide,
    previous_frame_end_always_present.1 0 [5]
      [.doUpload, .beginFrame .outOfDate, .endFrame false .ok] _ (by decide)⟩

lemma Scene.add_circle_spec (s : Scene) :
    s.add_circle.2 = s.all_circles.length ∧
    s.add_circle.1.all_circles.length = s.all_circles.length + 1 ∧
    (∀ j : Nat, j < s.all_circles.length →
      s.add_circle.1.all_circles[j]? = s.all_circles[j]?) ∧
    s.add_circle.1.all_circles[s.all_circles.length]? =
      some { Circle.new with index := s.all_circles.length } ∧
    s.add_circle.1.all_materials = s.all_materials := by
  simp only [Scene.add_circle, List.getElem?_concat_length]
  refine ⟨by trivial, by simp, ?_, ?_, by trivial⟩
  · intro j hj
    rw [List.getElem?_set_ne (by omega), List.getElem?_append_left hj]
  · exact List.getElem?_set_self (by simp)

lemma Scene.add_material_spec (s : Scene) :
    s.add_material.2 = s.all_materials.length ∧
    s.add_material.1.all_materials.length = s.all_materials.length + 1 ∧
    (∀ j : Nat, j < s.all_materials.length →
      s.add_material.1.all_materials[j]? = s.all_materials[j]?) ∧
    s.add_material.1.all_materials[s.all_materials.length]? =
      some { Material.new with index := s.all_materials.length } ∧
    s.add_material.1.all_circles = s.all_circles := by
  simp only [Scene.add_material, List.getElem?_concat_length]
  refine ⟨by trivial, by simp, ?_, ?_, by trivial⟩
  · intro j hj
    rw [List.getElem?_set_ne (by omega), List.getElem?_append_left hj]
  · exact List.getElem?_set_self (by simp)

lemma Scene.indexInv_add_circle (s : Scene) (h : s.indexInv) :
    s.add_circle.1.indexInv := by
  obtain ⟨-, hlen, hpre, hlast, hmats⟩ := s.add_circle_spec
  constructor
  · rw [hmats]
    exact h.1
  · intro i c hc
    rcases lt_trichotomy i s.all_circles.length with hi | hi | hi
    · rw [hpre i hi] at hc
      exact h.2 i c hc
    · subst hi
      rw [hlast] at hc
      cases hc
      rfl
    · rw [List.getElem?_eq_none_iff.mpr (by omega)] at hc
      cases hc

lemma Scene.indexInv_add_material (s : Scene) (h : s.indexInv) :
    s.add_material.1.indexInv := by
  obtain ⟨-, hlen, hpre, hlast, hcircs⟩ := s.add_material_spec
  constructor
  · intro i m hm
    rcases lt_trichotomy i s.all_materials.length with hi | hi | hi
    · rw [hpre i hi] at hm
      exact h.1 i m hm
    · subst hi
      rw [hlast] at hm
      cases hm
      rfl
    · rw [List.getElem?_eq_none_iff.mpr (by omega)] at hm
      cases hm
  · rw [hcircs]
    exact h.2

lemma Scene.indexInv_applyOps (ops : List SceneOp) :
    ∀ s : Scene, s.indexInv → (s.applyOps ops).indexInv := by
  induction ops with
  | nil => exact fun s h => h
  | cons op rest ih =>
    intro s h
    cases op with
    | addMaterial => exact ih _ (s.indexInv_add_material h)
    | addCircle => exact ih _ (s.indexInv_add_circle h)

/-- C8: add_circle / add_material append one new default-valued entry,
assign it index equal to its position in its owning collection, return a
handle to that position, and leave the existing entries in place; hence
after any sequence of such calls from a scene satisfying the index
invariant, every entry's index field equals its position. -/
theorem add_entries_index_positions (s : Scene) (hs : s.indexInv) (ops : List SceneOp) :
    (∀ t : Scene,
      t.add_circle.2 = t.all_circles.length ∧
      t.add_circle.1.all_circles.length = t.all_circles.length + 1 ∧
      (∀ j : Nat, j < t.all_circles.length →
        t.add_circle.1.all_circles[j]? = t.all_circles[j]?) ∧
      t.add_circle.1.all_circles[t.add_circle.2]? =
        some { Circle.new with index := t.add_circle.2 }) ∧
    (∀ t : Scene,
      t.add_material.2 = t.all_materials.length ∧
      t.add_material.1.all_materials.length = t.all_materials.length + 1 ∧
      (∀ j : Nat, j < t.all_materials.length →
        t.add_material.1.all_materials[j]? = t.all_materials[j]?) ∧
      t.add_material.1.all_materials[t.add_material.2]? =
        some { Material.new with index := t.add_material.2 }) ∧
    (s.applyOps ops).indexInv := by
  refine ⟨?_, ?_, Scene.indexInv_applyOps ops s hs⟩
  · intro t
    obtain ⟨h2, hlen, hpre, hlast, -⟩ := t.add_circle_spec
    exact ⟨h2, hlen, hpre, by rw [h2]; exact hlast⟩
  · intro t
    obtain ⟨h2, hlen, hpre, hlast, -⟩ := t.add_material_spec
    exact ⟨h2, hlen, hpre, by rw [h2]; exact hlast⟩

theorem add_entries_index_positions_witness :
    Scene.empty.indexInv ∧
    (Scene.empty.applyOps [.addCircle, .addMaterial, .addCircle]).indexInv :=
  ⟨⟨by simp [Scene.empty], by simp [Scene.empty]⟩,
    (add_entries_index_positions Scene.empty
      ⟨by simp [Scene.empty], by simp [Scene.empty]⟩
      [.addCircle, .addMaterial, .addCircle]).2.2⟩

lemma material_set_dirty_false_eq (m : Material) (h : m.dirty = false) :
    ({ m with dirty := false } : Material) = m := by
  cases m
  cases h
  rfl

lemma circle_set_dirty_false_eq (c : Circle) (h : c.dirty = false) :
    ({ c with dirty := false } : Circle) = c := by
  cases c
  cases h
  rfl

lemma mat_run_writes_ok (n : Nat) : ∀ (a : Nat) (st : SyncSt) (b : GpuBuffer ShaderMaterial),
    st.app.material_buffer = some b →
    a + n ≤ st.app.scene.all_materials.length →
    st.app.scene.all_materials.length ≤ b.data.length →
    ∃ st2 b2, run_sync (mat_step writes_ok) (List.range' a n) st = some st2 ∧
      MatRunOut a n st b st2 b2 := by
  induction n with
  | zero =>
    intro a st b hb _ _
    refine ⟨st, b, rfl, ?_⟩
    exact ⟨hb, rfl, rfl, rfl, rfl, rfl, rfl, rfl, rfl, rfl, rfl, rfl,
      fun j _ => ⟨rfl, rfl⟩, fun j m h1 h2 _ => absurd h2 (by omega)⟩
  | succ n ih =>
    intro a st b hb hlen hcap
    have hma : a < st.app.scene.all_materials.length := by omega
    have hmb : a < b.data.length := by omega
    obtain ⟨m, hm⟩ : ∃ m, st.app.scene.all_materials[a]? = some m :=
      ⟨_, List.getElem?_eq_getElem hma⟩
    cases hd : m.dirty with
    | false =>
      have hstep : mat_step writes_ok a st = some st := by
        simp [mat_step, hm, hd]
      obtain ⟨st2, b2, hrun, out⟩ := ih (a + 1) st b hb (by omega) hcap
      refine ⟨st2, b2, ?_, ?_⟩
      · rw [List.range'_succ]
        simp only [run_sync, hstep, Option.some_bind]
        exact hrun
      · refine ⟨out.hbuf, out.hid, out.hcap, out.hdlen, out.hmlen, out.hsize,
          out.hcircs, out.hcbuf, out.hcsize, out.hgeom, out.hnid, out.hupd, ?_, ?_⟩
        · intro j hj
          exact out.houtside j (by omega)
        · intro j mj h1 h2 hmj
          rcases Nat.eq_or_lt_of_le h1 with heq | hlt
          · subst heq
            rw [hm] at hmj
            cases hmj
            have h3 := out.houtside a (by omega)
            refine ⟨?_, ?_⟩
            · rw [h3.1, hm, material_set_dirty_false_eq m hd]
            · rw [h3.2, hd]
              simp
          · exact out.hinside j mj hlt (by omega) hmj
    | true =>
      have hstep : mat_step writes_ok a st =
          some { st with
                   app := { st.app with
                     scene := { st.app.scene with
                       all_materials :=
                         st.app.scene.all_materials.set a { m with dirty := false } }
                     material_buffer :=
                       some { b with data := b.data.set a (some m.toShader) } }
                   attempts := st.attempts + 1
                   writes := st.writes + 1 } := by
        simp [mat_step, hm, hd, hb, writes_ok]
      obtain ⟨st2, b2, hrun, out⟩ := ih (a + 1)
        { st with
            app := { st.app with
              scene := { st.app.scene with
                all_materials :=
                  st.app.scene.all_materials.set a { m with dirty := false } }
              material_buffer :=
                some { b with data := b.data.set a (some m.toShader) } }
            attempts := st.attempts + 1
            writes := st.writes + 1 }
        { b with data := b.data.set a (some m.toShader) } rfl
        (by simp only [List.length_set]; omega)
        (by simp only [List.length_set]; omega)
      refine ⟨st2, b2, ?_, ?_⟩
      · rw [List.range'_succ]
        simp only [run_sync, hstep, Option.some_bind]
        exact hrun
      · refine ⟨out.hbuf, out.hid, out.hcap,
          out.hdlen.trans (List.length_set b.data a _),
          out.hmlen.trans (List.length_set st.app.scene.all_materials a _),
          out.hsize, out.hcircs, out.hcbuf, out.hcsize, out.hgeom, out.hnid,
          out.hupd, ?_, ?_⟩
        · intro j hj
          have h3 := out.houtside j (by omega)
          exact ⟨h3.1.trans (List.getElem?_set_ne (by omega)),
            h3.2.trans (List.getElem?_set_ne (by omega))⟩
        · intro j mj h1 h2 hmj
          rcases Nat.eq_or_lt_of_le h1 with heq | hlt
          · subst heq
            rw [hm] at hmj
            cases hmj
            have h3 := out.houtside a (by omega)
            refine ⟨h3.1.trans (List.getElem?_set_self hma), ?_⟩
            rw [hd]
            simp only [if_pos rfl]
            exact h3.2.trans (List.getElem?_set_self hmb)
          · have hstj : (st.app.scene.all_materials.set a
                { m with dirty := false })[j]? = some mj :=
              (List.getElem?_set_ne (by omega)).trans hmj
            obtain ⟨hA, hB⟩ := out.hinside j mj hlt (by omega) hstj
            refine ⟨hA, ?_⟩
            rw [hB]
            simp only [List.getElem?_set_ne (show a ≠ j from by omega)]

lemma circ_run_writes_ok (n : Nat) : ∀ (a : Nat) (st : SyncSt) (b : GpuBuffer ShaderCircle),
    st.app.circle_buffer = some b →
    a + n ≤ st.app.scene.all_circles.length →
    st.app.scene.all_circles.length ≤ b.data.length →
    ∃ st2 b2, run_sync (circ_step writes_ok) (List.range' a n) st = some st2 ∧
      CircRunOut a n st b st2 b2 := by
  induction n with
  | zero =>
    intro a st b hb _ _
    refine ⟨st, b, rfl, ?_⟩
    exact ⟨hb, rfl, rfl, rfl, rfl, rfl, rfl, rfl, rfl, rfl, rfl, rfl,
      fun j _ => ⟨rfl, rfl⟩, fun j m h1 h2 _ => absurd h2 (by omega)⟩
  | succ n ih =>
    intro a st b hb hlen hcap
    have hca : a < st.app.scene.all_circles.length := by omega
    have hcb2bound : a < b.data.length := by omega
    obtain ⟨c, hm⟩ : ∃ c, st.app.scene.all_circles[a]? = some c :=
      ⟨_, List.getElem?_eq_getElem hca⟩
    cases hd : c.dirty with
    | false =>
      have hstep : circ_step writes_ok a st = some st := by
        simp [circ_step, hm, hd]
      obtain ⟨st2, b2, hrun, out⟩ := ih (a + 1) st b hb (by omega) hcap
      refine ⟨st2, b2, ?_, ?_⟩
      · rw [List.range'_succ]
        simp only [run_sync, hstep, Option.some_bind]
        exact hrun
      · refine ⟨out.hbuf, out.hid, out.hcap, out.hdlen, out.hclen, out.hsizec,
          out.hmats, out.hmbuf, out.hmsize, out.hgeom, out.hnid, out.hupd, ?_, ?_⟩
        · intro j hj
          exact out.houtside j (by omega)
        · intro j cj h1 h2 hcj
          rcases Nat.eq_or_lt_of_le h1 with heq | hlt
          · subst heq
            rw [hm] at hcj
            cases hcj
            have h3 := out.houtside a (by omega)
            refine ⟨?_, ?_⟩
            · rw [h3.1, hm, circle_set_dirty_false_eq c hd]
            · rw [h3.2, hd]
              simp
          · exact out.hinside j cj hlt (by omega) hcj
    | true =>
      have hstep : circ_step writes_ok a st =
          some { st with
                   app := { st.app with
                     scene := { st.app.scene with
                       all_circles :=
                         st.app.scene.all_circles.set a { c with dirty := false } }
                     circle_buffer :=
                       some { b with data := b.data.set a (some c.toShader) } }
                   attempts := st.attempts + 1
                   writes := st.writes + 1 } := by
        simp [circ_step, hm, hd, hb, writes_ok]
      obtain ⟨st2, b2, hrun, out⟩ := ih (a + 1)
        { st with
            app := { st.app with
              scene := { st.app.scene with
                all_circles :=
                  st.app.scene.all_circles.set a { c with dirty := false } }
              circle_buffer :=
                some { b with data := b.data.set a (some c.toShader) } }
            attempts := st.attempts + 1
            writes := st.writes + 1 }
        { b with data := b.data.set a (some c.toShader) } rfl
        (by simp only [List.length_set]; omega)
        (by simp only [List.length_set]; omega)
      refine ⟨st2, b2, ?_, ?_⟩
      · rw [List.range'_succ]
        simp only [run_sync, hstep, Option.some_bind]
        exact hrun
      · refine ⟨out.hbuf, out.hid, out.hcap,
          out.hdlen.trans (List.length_set b.data a _),
          out.hclen.trans (List.length_set st.app.scene.all_circles a _),
          out.hsizec, out.hmats, out.hmbuf, out.hmsize, out.hgeom, out.hnid,
          out.hupd, ?_, ?_⟩
        · intro j hj
          have h3 := out.houtside j (by omega)
          exact ⟨h3.1.trans (List.getElem?_set_ne (by omega)),
            h3.2.trans (List.getElem?_set_ne (by omega))⟩
        · intro j cj h1 h2 hcj
          rcases Nat.eq_or_lt_of_le h1 with heq | hlt
          · subst heq
            rw [hm] at hcj
            cases hcj
            have h3 := out.houtside a (by omega)
            refine ⟨h3.1.trans (List.getElem?_set_self hca), ?_⟩
            rw [hd]
            simp only [if_pos rfl]
            exact h3.2.trans (List.getElem?_set_self hcb2bound)
          · have hstcj : (st.app.scene.all_circles.set a
                { c with dirty := false })[j]? = some cj :=
              (List.getElem?_set_ne (by omega)).trans hcj
            obtain ⟨hA, hB⟩ := out.hinside j cj hlt (by omega) hstcj
            refine ⟨hA, ?_⟩
            rw [hB]
            simp only [List.getElem?_set_ne (show a ≠ j from by omega)]

lemma run_sync_inv (P : SyncSt → Prop) (step : Nat → SyncSt → Option SyncSt)
    (hstep : ∀ i st st2, step i st = some st2 → P st → P st2) :
    ∀ (idxs : List Nat) (st st2 : SyncSt),
      run_sync step idxs st = some st2 → P st → P st2 := by
  intro idxs
  induction idxs with
  | nil =>
    intro st st2 h hp
    cases h
    exact hp
  | cons i rest ih =>
    intro st st2 h hp
    simp only [run_sync, Option.bind_eq_some] at h
    obtain ⟨stm, h1, h2⟩ := h
    exact ih stm st2 h2 (hstep i st stm h1 hp)

lemma mat_run_clean (wOk : Nat → Bool) (idxs : List Nat) :
    ∀ st : SyncSt,
      (∀ i ∈ idxs, ∃ m : Material,
        st.app.scene.all_materials[i]? = some m ∧ m.dirty = false) →
      run_sync (mat_step wOk) idxs st = some st := by
  induction idxs with
  | nil => intro st _; rfl
  | cons i rest ih =>
    intro st h
    obtain ⟨m, hm, hd⟩ := h i (by simp)
    have hstep : mat_step wOk i st = some st := by
      simp [mat_step, hm, hd]
    simp only [run_sync, hstep, Option.some_bind]
    exact ih st (fun j hj => h j (by simp [hj]))

lemma circ_run_clean (wOk : Nat → Bool) (idxs : List Nat) :
    ∀ st : SyncSt,
      (∀ i ∈ idxs, ∃ c : Circle,
        st.app.scene.all_circles[i]? = some c ∧ c.dirty = false) →
      run_sync (circ_step wOk) idxs st = some st := by
  induction idxs with
  | nil => intro st _; rfl
  | cons i rest ih =>
    intro st h
    obtain ⟨c, hc, hd⟩ := h i (by simp)
    have hstep : circ_step wOk i st = some st := by
      simp [circ_step, hc, hd]
    simp only [run_sync, hstep, Option.some_bind]
    exact ih st (fun j hj => h j (by simp [hj]))

/-- C2: when no entry of either collection is dirty and neither length
drifted from its stored buffer size, check_buffers performs zero record
writes and returns the App state completely unchanged (buffers and
geometry descriptor set included); hence a second run with no mutations in
between also performs zero writes. -/
theorem check_buffers_clean_noop (wOk : Nat → Bool) (hl : Bool) (s : AppState)
    (hm : ∀ m ∈ s.scene.all_materials, m.dirty = false)
    (hc : ∀ c ∈ s.scene.all_circles, c.dirty = false)
    (hms : s.scene.all_materials.length = s.material_buffer_size)
    (hcs : s.scene.all_circles.length = s.circle_buffer_size) :
    check_buffers wOk hl s = some (s, 0) ∧
    (check_buffers wOk hl s).bind (fun r => check_buffers wOk hl r.1) = some (s, 0) := by
  have hmats : ∀ i ∈ List.range s.scene.all_materials.length, ∃ m : Material,
      s.scene.all_materials[i]? = some m ∧ m.dirty = false := by
    intro i hi
    rw [List.mem_range] at hi
    refine ⟨s.scene.all_materials[i], List.getElem?_eq_getElem hi, ?_⟩
    exact hm _ (List.getElem_mem hi)
  have hcircs : ∀ i ∈ List.range s.scene.all_circles.length, ∃ c : Circle,
      s.scene.all_circles[i]? = some c ∧ c.dirty = false := by
    intro i hi
    rw [List.mem_range] at hi
    refine ⟨s.scene.all_circles[i], List.getElem?_eq_getElem hi, ?_⟩
    exact hc _ (List.getElem_mem hi)
  have h1 : ¬(s.scene.all_materials.length ≠ s.material_buffer_size) := by omega
  have h2 : ¬(s.scene.all_circles.length ≠ s.circle_buffer_size) := by omega
  have hone : check_buffers wOk hl s = some (s, 0) := by
    unfold check_buffers
    simp only [if_neg h1]
    rw [mat_run_clean wOk _ _ hmats]
    simp only [Option.some_bind, if_neg h2]
    rw [circ_run_clean wOk _ _ hcircs]
    simp only [Option.some_bind, Bool.false_and, Bool.false_eq_true, if_false]
  exact ⟨hone, by rw [hone]; exact hone⟩

lemma mat_step_c3 (wOk : Nat → Bool) (i : Nat) (st st2 : SyncSt)
    (h : mat_step wOk i st = some st2) :
    st2.app.material_buffer_size = st.app.material_buffer_size ∧
    st2.app.circle_buffer_size = st.app.circle_buffer_size ∧
    st2.app.circle_buffer = st.app.circle_buffer ∧
    st2.app.scene.all_circles = st.app.scene.all_circles ∧
    ((∀ b, st.app.material_buffer = some b → b.capacity = st.app.material_buffer_size) →
      ∀ b, st2.app.material_buffer = some b → b.capacity = st.app.material_buffer_size) ∧
    (st.app.material_buffer.isSome = true → st2.app.material_buffer.isSome = true) := by
  simp only [mat_step, recreate_material_buffer] at h
  split at h
  · cases h
  · rename_i m hm
    split at h
    · split at h
      · cases h
      · rename_i b hb
        split at h
        · cases h
          refine ⟨rfl, rfl, rfl, rfl, ?_, fun _ => rfl⟩
          intro hcap b2 hb2
          cases hb2
          exact hcap b hb
        · split at h
          · cases h
            refine ⟨rfl, rfl, rfl, rfl, ?_, fun _ => rfl⟩
            intro _ b2 hb2
            cases hb2
            rfl
          · cases h
    · cases h
      exact ⟨rfl, rfl, rfl, rfl, fun hcap => hcap, fun hs => hs⟩

lemma circ_step_c3 (wOk : Nat → Bool) (i : Nat) (st st2 : SyncSt)
    (h : circ_step wOk i st = some st2) :
    st2.app.circle_buffer_size = st.app.circle_buffer_size ∧
    st2.app.material_buffer_size = st.app.material_buffer_size ∧
    st2.app.material_buffer = st.app.material_buffer ∧
    st2.app.scene.all_materials = st.app.scene.all_materials ∧
    ((∀ b, st.app.circle_buffer = some b → b.capacity = st.app.circle_buffer_size) →
      ∀ b, st2.app.circle_buffer = some b → b.capacity = st.app.circle_buffer_size) ∧
    (st.app.circle_buffer.isSome = true → st2.app.circle_buffer.isSome = true) := by
  simp only [circ_step, recreate_circle_buffer] at h
  split at h
  · cases h
  · rename_i c hc
    split at h
    · split at h
      · cases h
      · rename_i b hb
        split at h
        · cases h
          refine ⟨rfl, rfl, rfl, rfl, ?_, fun _ => rfl⟩
          intro hcap b2 hb2
          cases hb2
          exact hcap b hb
        · split at h
          · cases h
            refine ⟨rfl, rfl, rfl, rfl, ?_, fun _ => rfl⟩
            intro _ b2 hb2
            cases hb2
            rfl
          · cases h
    · cases h
      exact ⟨rfl, rfl, rfl, rfl, fun hcap => hcap, fun hs => hs⟩

/-- C3: whatever the write outcomes, whenever check_buffers returns on a
well-formed App state, each stored buffer-size field equals its
collection's length S, every backing buffer present is allocated for
exactly S records (not over- or under-provisioned), and for S > 0 the
buffer is present. -/
theorem check_buffers_capacity_exact (wOk : Nat → Bool) (hl : Bool) (s s2 : AppState)
    (w : Nat) (hwf : s.buffers_wf) (hrun : check_buffers wOk hl s = some (s2, w)) :
    s2.material_buffer_size = s.scene.all_materials.length ∧
    (∀ b, s2.material_buffer = some b → b.capacity = s.scene.all_materials.length) ∧
    (0 < s.scene.all_materials.length → s2.material_buffer.isSome = true) ∧
    s2.circle_buffer_size = s.scene.all_circles.length ∧
    (∀ b, s2.circle_buffer = some b → b.capacity = s.scene.all_circles.length) ∧
    (0 < s.scene.all_circles.length → s2.circle_buffer.isSome = true) := by
  obtain ⟨hwfm, hwfmn, hwfc, hwfcn⟩ := hwf
  have hstep_m : ∀ i st st2, mat_step wOk i st = some st2 →
      (st.app.material_buffer_size = s.scene.all_materials.length ∧
       (∀ b, st.app.material_buffer = some b → b.capacity = s.scene.all_materials.length) ∧
       (0 < s.scene.all_materials.length → st.app.material_buffer.isSome = true) ∧
       st.app.scene.all_circles = s.scene.all_circles ∧
       st.app.circle_buffer = s.circle_buffer ∧
       st.app.circle_buffer_size = s.circle_buffer_size) →
      (st2.app.material_buffer_size = s.scene.all_materials.length ∧
       (∀ b, st2.app.material_buffer = some b → b.capacity = s.scene.all_materials.length) ∧
       (0 < s.scene.all_materials.length → st2.app.material_buffer.isSome = true) ∧
       st2.app.scene.all_circles = s.scene.all_circles ∧
       st2.app.circle_buffer = s.circle_buffer ∧
       st2.app.circle_buffer_size = s.circle_buffer_size) := by
    intro i st st2 h hp
    obtain ⟨e1, e2, e3, e4, e5, e6⟩ := mat_step_c3 wOk i st st2 h
    refine ⟨e1.trans hp.1, ?_, fun h0 => e6 (hp.2.2.1 h0),
      e4.trans hp.2.2.2.1, e3.trans hp.2.2.2.2.1, e2.trans hp.2.2.2.2.2⟩
    intro b hb
    have hpre : ∀ b, st.app.material_buffer = some b →
        b.capacity = st.app.material_buffer_size :=
      fun b hb2 => (hp.2.1 b hb2).trans hp.1.symm
    exact (e5 hpre b hb).trans hp.1
  have hstep_c : ∀ i st st2, circ_step wOk i st = some st2 →
      (st.app.circle_buffer_size = s.scene.all_circles.length ∧
       (∀ b, st.app.circle_buffer = some b → b.capacity = s.scene.all_circles.length) ∧
       (0 < s.scene.all_circles.length → st.app.circle_buffer.isSome = true) ∧
       st.app.material_buffer_size = s.scene.all_materials.length ∧
       (∀ b, st.app.material_buffer = some b → b.capacity = s.scene.all_materials.length) ∧
       (0 < s.scene.all_materials.length → st.app.material_buffer.isSome = true)) →
      (st2.app.circle_buffer_size = s.scene.all_circles.length ∧
       (∀ b, st2.app.circle_buffer = some b → b.capacity = s.scene.all_circles.length) ∧
       (0 < s.scene.all_circles.length → st2.app.circle_buffer.isSome = true) ∧
       st2.app.material_buffer_size = s.scene.all_materials.length ∧
       (∀ b, st2.app.material_buffer = some b → b.capacity = s.scene.all_materials.length) ∧
       (0 < s.scene.all_materials.length → st2.app.material_buffer.isSome = true)) := by
    intro i st st2 h hp
    obtain ⟨e1, e2, e3, e4, e5, e6⟩ := circ_step_c3 wOk i st st2 h
    refine ⟨e1.trans hp.1, ?_, fun h0 => e6 (hp.2.2.1 h0),
      e2.trans hp.2.2.2.1, ?_, fun h0 => ?_⟩
    · intro b hb
      have hpre : ∀ b, st.app.circle_buffer = some b →
          b.capacity = st.app.circle_buffer_size :=
        fun b hb2 => (hp.2.1 b hb2).trans hp.1.symm
      exact (e5 hpre b hb).trans hp.1
    · intro b hb
      rw [e3] at hb
      exact hp.2.2.2.2.1 b hb
    · rw [e3]
      exact hp.2.2.2.2.2 h0
  simp only [check_buffers] at hrun
  rcases Option.bind_eq_some.mp hrun with ⟨stA, hrA, hrest⟩
  have hPA : stA.app.material_buffer_size = s.scene.all_materials.length ∧
      (∀ b, stA.app.material_buffer = some b → b.capacity = s.scene.all_materials.length) ∧
      (0 < s.scene.all_materials.length → stA.app.material_buffer.isSome = true) ∧
      stA.app.scene.all_circles = s.scene.all_circles ∧
      stA.app.circle_buffer = s.circle_buffer ∧
      stA.app.circle_buffer_size = s.circle_buffer_size := by
    by_cases hms : s.scene.all_materials.length ≠ s.material_buffer_size
    · rw [if_pos hms] at hrA
      refine run_sync_inv _ _ hstep_m _ _ _ hrA ?_
      refine ⟨rfl, ?_, fun _ => rfl, rfl, rfl, rfl⟩
      intro b hb
      simp only [recreate_material_buffer] at hb
      cases hb
      rfl
    · rw [if_neg hms] at hrA
      push_neg at hms
      refine run_sync_inv _ _ hstep_m _ _ _ hrA ?_
      refine ⟨hms.symm, ?_, ?_, rfl, rfl, rfl⟩
      · intro b hb
        exact ((hwfm b hb).1).trans hms.symm
      · intro h0
        cases hbm : s.material_buffer with
        | none =>
          rw [hwfmn hbm] at hms
          exfalso
          omega
        | some b => rfl
  rcases Option.bind_eq_some.mp hrest with ⟨stB, hrB, hfin⟩
  have hlenC : stA.app.scene.all_circles.length = s.scene.all_circles.length := by
    rw [hPA.2.2.2.1]
  have hQB : stB.app.circle_buffer_size = s.scene.all_circles.length ∧
      (∀ b, stB.app.circle_buffer = some b → b.capacity = s.scene.all_circles.length) ∧
      (0 < s.scene.all_circles.length → stB.app.circle_buffer.isSome = true) ∧
      stB.app.material_buffer_size = s.scene.all_materials.length ∧
      (∀ b, stB.app.material_buffer = some b → b.capacity = s.scene.all_materials.length) ∧
      (0 < s.scene.all_materials.length → stB.app.material_buffer.isSome = true) := by
    by_cases hcs : stA.app.scene.all_circles.length ≠ stA.app.circle_buffer_size
    · rw [if_pos hcs] at hrB
      refine run_sync_inv _ _ hstep_c _ _ _ hrB ?_
      refine ⟨hlenC, ?_, fun _ => rfl, hPA.1, hPA.2.1, hPA.2.2.1⟩
      intro b hb
      simp only [recreate_circle_buffer] at hb
      cases hb
      exact hlenC
    · rw [if_neg hcs] at hrB
      push_neg at hcs
      refine run_sync_inv _ _ hstep_c _ _ _ hrB ?_
      have hsizeC : stA.app.circle_buffer_size = s.scene.all_circles.length :=
        hcs.symm.trans hlenC
      refine ⟨hsizeC, ?_, ?_, hPA.1, hPA.2.1, hPA.2.2.1⟩
      · intro b hb
        rw [hPA.2.2.2.2.1] at hb
        exact ((hwfc b hb).1).trans (hPA.2.2.2.2.2.symm.trans hsizeC)
      · intro h0
        rw [hPA.2.2.2.2.1]
        cases hbc : s.circle_buffer with
        | none =>
          have := hwfcn hbc
          rw [this] at hPA
          rw [hPA.2.2.2.2.2] at hsizeC
          omega
        | some b => rfl
  cases hfin
  have hm1 : (if (stB.update_descriptors && hl) = true then
      { stB.app with geom_set := some (build_geom_set stB.app) }
      else stB.app).material_buffer = stB.app.material_buffer := by
    split <;> rfl
  have hm2 : (if (stB.update_descriptors && hl) = true then
      { stB.app with geom_set := some (build_geom_set stB.app) }
      else stB.app).material_buffer_size = stB.app.material_buffer_size := by
    split <;> rfl
  have hc1 : (if (stB.update_descriptors && hl) = true then
      { stB.app with geom_set := some (build_geom_set stB.app) }
      else stB.app).circle_buffer = stB.app.circle_buffer := by
    split <;> rfl
  have hc2 : (if (stB.update_descriptors && hl) = true then
      { stB.app with geom_set := some (build_geom_set stB.app) }
      else stB.app).circle_buffer_size = stB.app.circle_buffer_size := by
    split <;> rfl
  refine ⟨hm2.trans hQB.2.2.2.1, ?_, ?_, hc2.trans hQB.1, ?_, ?_⟩
  · intro b hb
    rw [hm1] at hb
    exact hQB.2.2.2.2.1 b hb
  · intro h0
    rw [hm1]
    exact hQB.2.2.2.2.2 h0
  · intro b hb
    rw [hc1] at hb
    exact hQB.2.1 b hb
  · intro h0
    rw [hc1]
    exact hQB.2.2.1 h0

lemma mat_phase_resize (s : AppState) :
    ∃ stA bA,
      run_sync (mat_step writes_ok)
        (List.range (recreate_material_buffer
          { app := { s with material_buffer_size := s.scene.all_materials.length }
            attempts := 0, writes := 0
            update_descriptors := false }).app.scene.all_materials.length)
        (recreate_material_buffer
          { app := { s with material_buffer_size := s.scene.all_materials.length }
            attempts := 0, writes := 0
            update_descriptors := false }) = some stA ∧
      stA.app.scene.all_circles = s.scene.all_circles ∧
      stA.app.circle_buffer = s.circle_buffer ∧
      stA.app.circle_buffer_size = s.circle_buffer_size ∧
      stA.app.next_buffer_id = s.next_buffer_id + 1 ∧
      stA.app.material_buffer_size = s.scene.all_materials.length ∧
      stA.app.material_buffer = some bA ∧
      bA.capacity = s.scene.all_materials.length ∧
      bA.id = s.next_buffer_id ∧
      (∀ (i : Nat) (m : Material), s.scene.all_materials[i]? = some m →
        bA.data[i]? = some (some m.toShader) ∧
        stA.app.scene.all_materials[i]? = some { m with dirty := false }) ∧
      (∀ m ∈ stA.app.scene.all_materials, m.dirty = false) := by
  have hTlen : (recreate_material_buffer
      { app := { s with material_buffer_size := s.scene.all_materials.length }
        attempts := 0, writes := 0
        update_descriptors := false }).app.scene.all_materials.length =
      s.scene.all_materials.length := by
    simp [recreate_material_buffer]
  obtain ⟨stA, bA, hrun, out⟩ := mat_run_writes_ok
    (recreate_material_buffer
      { app := { s with material_buffer_size := s.scene.all_materials.length }
        attempts := 0, writes := 0
        update_descriptors := false }).app.scene.all_materials.length
    0
    (recreate_material_buffer
      { app := { s with material_buffer_size := s.scene.all_materials.length }
        attempts := 0, writes := 0
        update_descriptors := false })
    { id := s.next_buffer_id
      capacity := s.scene.all_materials.length
      data := List.replicate s.scene.all_materials.length none }
    rfl (by omega) (by rw [hTlen]; simp)
  have hstAlen : stA.app.scene.all_materials.length = s.scene.all_materials.length :=
    out.hmlen.trans hTlen
  refine ⟨stA, bA, ?_, out.hcircs, out.hcbuf, out.hcsize, out.hnid, out.hsize,
    out.hbuf, out.hcap, out.hid, ?_, ?_⟩
  · rw [List.range_eq_range']
    exact hrun
  · intro i m hi
    obtain ⟨hlt, -⟩ := List.getElem?_eq_some_iff.mp hi
    have hTi : (recreate_material_buffer
        { app := { s with material_buffer_size := s.scene.all_materials.length }
          attempts := 0, writes := 0
          update_descriptors := false }).app.scene.all_materials[i]? =
        some { m with dirty := true } := by
      show (s.scene.all_materials.map
        (fun m0 : Material => ({ m0 with dirty := true } : Material)))[i]? = _
      rw [List.getElem?_map, hi]
      rfl
    obtain ⟨hA, hB⟩ := out.hinside i { m with dirty := true } (by omega)
      (by rw [hTlen]; omega) hTi
    exact ⟨hB.trans (if_pos rfl), hA⟩
  · intro m2 hm2
    obtain ⟨j, hj⟩ := List.mem_iff_getElem?.mp hm2
    obtain ⟨hjlt, -⟩ := List.getElem?_eq_some_iff.mp hj
    rw [hstAlen] at hjlt
    have hsj : s.scene.all_materials[j]? = some s.scene.all_materials[j] :=
      List.getElem?_eq_getElem hjlt
    have hTj : (recreate_material_buffer
        { app := { s with material_buffer_size := s.scene.all_materials.length }
          attempts := 0, writes := 0
          update_descriptors := false }).app.scene.all_materials[j]? =
        some { s.scene.all_materials[j] with dirty := true } := by
      show (s.scene.all_materials.map
        (fun m0 : Material => ({ m0 with dirty := true } : Material)))[j]? = _
      rw [List.getElem?_map, hsj]
      rfl
    obtain ⟨hA, -⟩ := out.hinside j { s.scene.all_materials[j] with dirty := true }
      (by omega) (by rw [hTlen]; omega) hTj
    rw [hA] at hj
    cases hj
    rfl

lemma mat_phase_noresize (s : AppState)
    (hms : s.scene.all_materials.length = s.material_buffer_size)
    (hwfm : ∀ b, s.material_buffer = some b →
      b.capacity = s.material_buffer_size ∧ b.data.length = s.material_buffer_size ∧
      b.id < s.next_buffer_id)
    (hwfmn : s.material_buffer = none → s.material_buffer_size = 0) :
    ∃ stA : SyncSt,
      run_sync (mat_step writes_ok)
        (List.range
          (SyncSt.app { app := s, attempts := 0, writes := 0, update_descriptors := false }).scene.all_materials.length)
        { app := s, attempts := 0, writes := 0, update_descriptors := false } =
        some stA ∧
      stA.app.scene.all_circles = s.scene.all_circles ∧
      stA.app.circle_buffer = s.circle_buffer ∧
      stA.app.circle_buffer_size = s.circle_buffer_size ∧
      stA.app.next_buffer_id = s.next_buffer_id := by
  cases hbm : s.material_buffer with
  | some b =>
    obtain ⟨stA, bA, hrun, out⟩ := mat_run_writes_ok
      s.scene.all_materials.length 0
      { app := s, attempts := 0, writes := 0, update_descriptors := false }
      b hbm
      (by show 0 + s.scene.all_materials.length ≤ s.scene.all_materials.length; omega)
      (by show s.scene.all_materials.length ≤ b.data.length
          rw [(hwfm b hbm).2.1]
          omega)
    refine ⟨stA, ?_, out.hcircs, out.hcbuf, out.hcsize, out.hnid⟩
    rw [List.range_eq_range']
    exact hrun
  | none =>
    refine ⟨{ app := s, attempts := 0, writes := 0, update_descriptors := false },
      ?_, rfl, rfl, rfl, rfl⟩
    have hz : s.scene.all_materials.length = 0 := by
      rw [hms, hwfmn hbm]
    show run_sync (mat_step writes_ok) (List.range s.scene.all_materials.length) _ = _
    rw [hz, List.range_zero]
    rfl

lemma circ_phase_resize (s : AppState) (stA : SyncSt)
    (hcircs : stA.app.scene.all_circles = s.scene.all_circles) :
    ∃ stB bB,
      run_sync (circ_step writes_ok)
        (List.range (SyncSt.app (recreate_circle_buffer
          { stA with app := { stA.app with
              circle_buffer_size := stA.app.scene.all_circles.length } })).scene.all_circles.length)
        (recreate_circle_buffer
          { stA with app := { stA.app with
              circle_buffer_size := stA.app.scene.all_circles.length } }) = some stB ∧
      stB.app.scene.all_materials = stA.app.scene.all_materials ∧
      stB.app.material_buffer = stA.app.material_buffer ∧
      stB.app.material_buffer_size = stA.app.material_buffer_size ∧
      stB.app.circle_buffer_size = s.scene.all_circles.length ∧
      stB.app.circle_buffer = some bB ∧
      bB.capacity = s.scene.all_circles.length ∧
      bB.id = stA.app.next_buffer_id ∧
      (∀ (i : Nat) (c : Circle), s.scene.all_circles[i]? = some c →
        bB.data[i]? = some (some c.toShader) ∧
        stB.app.scene.all_circles[i]? = some { c with dirty := false }) ∧
      (∀ c ∈ stB.app.scene.all_circles, c.dirty = false) := by
  have hTlen : (SyncSt.app (recreate_circle_buffer
      { stA with app := { stA.app with
          circle_buffer_size := stA.app.scene.all_circles.length } })).scene.all_circles.length =
      s.scene.all_circles.length := by
    simp [recreate_circle_buffer, hcircs]
  obtain ⟨stB, bB, hrun, out⟩ := circ_run_writes_ok
    (SyncSt.app (recreate_circle_buffer
      { stA with app := { stA.app with
          circle_buffer_size := stA.app.scene.all_circles.length } })).scene.all_circles.length
    0
    (recreate_circle_buffer
      { stA with app := { stA.app with
          circle_buffer_size := stA.app.scene.all_circles.length } })
    { id := stA.app.next_buffer_id
      capacity := stA.app.scene.all_circles.length
      data := List.replicate stA.app.scene.all_circles.length none }
    rfl (by omega)
    (by rw [hTlen]
        simp [hcircs])
  have hstBlen : stB.app.scene.all_circles.length = s.scene.all_circles.length :=
    out.hclen.trans hTlen
  refine ⟨stB, bB, ?_, out.hmats, out.hmbuf, out.hsizec,
    out.hmsize.trans (by show stA.app.scene.all_circles.length = _; rw [hcircs]),
    out.hbuf,
    out.hcap.trans (by show stA.app.scene.all_circles.length = _; rw [hcircs]),
    out.hid, ?_, ?_⟩
  · rw [List.range_eq_range']
    exact hrun
  · intro i c hi
    obtain ⟨hlt, -⟩ := List.getElem?_eq_some_iff.mp hi
    have hTi : (SyncSt.app (recreate_circle_buffer
        { stA with app := { stA.app with
            circle_buffer_size := stA.app.scene.all_circles.length } })).scene.all_circles[i]? =
        some { c with dirty := true } := by
      show (stA.app.scene.all_circles.map
        (fun c0 : Circle => ({ c0 with dirty := true } : Circle)))[i]? = _
      rw [hcircs, List.getElem?_map, hi]
      rfl
    obtain ⟨hA, hB⟩ := out.hinside i { c with dirty := true } (by omega)
      (by rw [hTlen]; omega) hTi
    exact ⟨hB.trans (if_pos rfl), hA⟩
  · intro c2 hc2
    obtain ⟨j, hj⟩ := List.mem_iff_getElem?.mp hc2
    obtain ⟨hjlt, -⟩ := List.getElem?_eq_some_iff.mp hj
    rw [hstBlen] at hjlt
    have hsj : s.scene.all_circles[j]? = some s.scene.all_circles[j] :=
      List.getElem?_eq_getElem hjlt
    have hTj : (SyncSt.app (recreate_circle_buffer
        { stA with app := { stA.app with
            circle_buffer_size := stA.app.scene.all_circles.length } })).scene.all_circles[j]? =
        some { s.scene.all_circles[j] with dirty := true } := by
      show (stA.app.scene.all_circles.map
        (fun c0 : Circle => ({ c0 with dirty := true } : Circle)))[j]? = _
      rw [hcircs, List.getElem?_map, hsj]
      rfl
    obtain ⟨hA, -⟩ := out.hinside j { s.scene.all_circles[j] with dirty := true }
      (by omega) (by rw [hTlen]; omega) hTj
    rw [hA] at hj
    cases hj
    rfl

lemma circ_phase_noresize (s : AppState) (stA : SyncSt)
    (hcseq : stA.app.scene.all_circles.length = stA.app.circle_buffer_size)
    (hcbuf : stA.app.circle_buffer = s.circle_buffer)
    (hcsize : stA.app.circle_buffer_size = s.circle_buffer_size)
    (hwfc : ∀ b, s.circle_buffer = some b →
      b.capacity = s.circle_buffer_size ∧ b.data.length = s.circle_buffer_size ∧
      b.id < s.next_buffer_id)
    (hwfcn : s.circle_buffer = none → s.circle_buffer_size = 0) :
    ∃ stB : SyncSt,
      run_sync (circ_step writes_ok)
        (List.range stA.app.scene.all_circles.length) stA = some stB ∧
      stB.app.scene.all_materials = stA.app.scene.all_materials ∧
      stB.app.material_buffer = stA.app.material_buffer ∧
      stB.app.material_buffer_size = stA.app.material_buffer_size := by
  cases hbc : s.circle_buffer with
  | some b =>
    obtain ⟨stB, bB, hrun, out⟩ := circ_run_writes_ok
      stA.app.scene.all_circles.length 0 stA b (by rw [hcbuf]; exact hbc)
      (by omega)
      (by rw [(hwfc b hbc).2.1, ← hcsize, ← hcseq])
    refine ⟨stB, ?_, out.hmats, out.hmbuf, out.hsizec⟩
    rw [List.range_eq_range']
    exact hrun
  | none =>
    refine ⟨stA, ?_, rfl, rfl, rfl⟩
    have hz : stA.app.scene.all_circles.length = 0 := by
      rw [hcseq, hcsize, hwfcn hbc]
    rw [hz, List.range_zero]
    rfl

lemma final_pack (hl : Bool) (stB : SyncSt) :
    (if (stB.update_descriptors && hl) = true then
        { stB.app with geom_set := some (build_geom_set stB.app) }
      else stB.app).scene = stB.app.scene ∧
    (if (stB.update_descriptors && hl) = true then
        { stB.app with geom_set := some (build_geom_set stB.app) }
      else stB.app).material_buffer = stB.app.material_buffer ∧
    (if (stB.update_descriptors && hl) = true then
        { stB.app with geom_set := some (build_geom_set stB.app) }
      else stB.app).material_buffer_size = stB.app.material_buffer_size ∧
    (if (stB.update_descriptors && hl) = true then
        { stB.app with geom_set := some (build_geom_set stB.app) }
      else stB.app).circle_buffer = stB.app.circle_buffer ∧
    (if (stB.update_descriptors && hl) = true then
        { stB.app with geom_set := some (build_geom_set stB.app) }
      else stB.app).circle_buffer_size = stB.app.circle_buffer_size := by
  refine ⟨?_, ?_, ?_, ?_, ?_⟩ <;> (split <;> rfl)

/-- C1: with every mapped write succeeding, for each collection whose
current length differs from the stored buffer size, check_buffers stores
the new size, allocates a fresh buffer (a new allocation identity, sized
to the current length), rewrites all S records into it - previously clean
ones included - and leaves every entry's dirty flag false, so no record is
left stale after a resize. -/
theorem check_buffers_resize_rewrites_all (hl : Bool) (s : AppState)
    (hwf : s.buffers_wf) :
    ∃ s2 w, check_buffers writes_ok hl s = some (s2, w) ∧
      (s.scene.all_materials.length ≠ s.material_buffer_size →
        s2.material_buffer_size = s.scene.all_materials.length ∧
        ∃ b, s2.material_buffer = some b ∧
          b.capacity = s.scene.all_materials.length ∧
          (∀ ob, s.material_buffer = some ob → ob.id ≠ b.id) ∧
          (∀ (i : Nat) (m : Material), s.scene.all_materials[i]? = some m →
            b.data[i]? = some (some m.toShader) ∧
            s2.scene.all_materials[i]? = some { m with dirty := false }) ∧
          (∀ m ∈ s2.scene.all_materials, m.dirty = false)) ∧
      (s.scene.all_circles.length ≠ s.circle_buffer_size →
        s2.circle_buffer_size = s.scene.all_circles.length ∧
        ∃ b, s2.circle_buffer = some b ∧
          b.capacity = s.scene.all_circles.length ∧
          (∀ ob, s.circle_buffer = some ob → ob.id ≠ b.id) ∧
          (∀ (i : Nat) (c : Circle), s.scene.all_circles[i]? = some c →
            b.data[i]? = some (some c.toShader) ∧
            s2.scene.all_circles[i]? = some { c with dirty := false }) ∧
          (∀ c ∈ s2.scene.all_circles, c.dirty = false)) := by
  obtain ⟨hwfm, hwfmn, hwfc, hwfcn⟩ := hwf
  simp only [check_buffers]
  by_cases hms : s.scene.all_materials.length ≠ s.material_buffer_size
  · simp only [if_pos hms]
    obtain ⟨stA, bA, hrunA, hcircsA, hcbufA, hcsizeA, hnidA, hmsizeA, hmbufA,
      hcapA, hidA, hptA, hcleanA⟩ := mat_phase_resize s
    simp only [hrunA, Option.some_bind]
    by_cases hcs : s.scene.all_circles.length ≠ s.circle_buffer_size
    · have hcond : stA.app.scene.all_circles.length ≠ stA.app.circle_buffer_size := by
        rw [hcircsA, hcsizeA]
        exact hcs
      simp only [if_pos hcond]
      obtain ⟨stB, bB, hrunB, hmatsB, hmbufB, hmsizeB, hcsizeB, hcbufB, hcapB,
        hidB, hptB, hcleanB⟩ := circ_phase_resize s stA hcircsA
      simp only [hrunB, Option.some_bind]
      obtain ⟨hpScene, hpMBuf, hpMSize, hpCBuf, hpCSize⟩ := final_pack hl stB
      refine ⟨_, _, rfl, ?_, ?_⟩
      · intro _
        refine ⟨hpMSize.trans (hmsizeB.trans hmsizeA), bA,
          hpMBuf.trans (hmbufB.trans hmbufA), hcapA, ?_, ?_, ?_⟩
        · intro ob hob
          rw [hidA]
          exact Nat.ne_of_lt (hwfm ob hob).2.2
        · intro i m hi
          obtain ⟨hbd, hsm⟩ := hptA i m hi
          refine ⟨hbd, ?_⟩
          rw [hpScene, hmatsB]
          exact hsm
        · intro m hm
          rw [hpScene, hmatsB] at hm
          exact hcleanA m hm
      · intro _
        refine ⟨hpCSize.trans hcsizeB, bB, hpCBuf.trans hcbufB, hcapB, ?_, ?_, ?_⟩
        · intro ob hob
          rw [hidB, (hnidA : stA.app.next_buffer_id = s.next_buffer_id + 1)]
          have := (hwfc ob hob).2.2
          omega
        · intro i c hi
          obtain ⟨hbd, hsc⟩ := hptB i c hi
          refine ⟨hbd, ?_⟩
          rw [hpScene]
          exact hsc
        · intro c hc
          rw [hpScene] at hc
          exact hcleanB c hc
    · have hcond : ¬(stA.app.scene.all_circles.length ≠ stA.app.circle_buffer_size) := by
        simp only [hcircsA, hcsizeA]
        exact hcs
      simp only [if_neg hcond]
      obtain ⟨stB, hrunB, hmatsB, hmbufB, hmsizeB⟩ :=
        circ_phase_noresize s stA (not_ne_iff.mp hcond) hcbufA hcsizeA hwfc hwfcn
      simp only [hrunB, Option.some_bind]
      obtain ⟨hpScene, hpMBuf, hpMSize, hpCBuf, hpCSize⟩ := final_pack hl stB
      refine ⟨_, _, rfl, ?_, fun hcs2 => absurd hcs2 hcs⟩
      intro _
      refine ⟨hpMSize.trans (hmsizeB.trans hmsizeA), bA,
        hpMBuf.trans (hmbufB.trans hmbufA), hcapA, ?_, ?_, ?_⟩
      · intro ob hob
        rw [hidA]
        exact Nat.ne_of_lt (hwfm ob hob).2.2
      · intro i m hi
        obtain ⟨hbd, hsm⟩ := hptA i m hi
        refine ⟨hbd, ?_⟩
        rw [hpScene, hmatsB]
        exact hsm
      · intro m hm
        rw [hpScene, hmatsB] at hm
        exact hcleanA m hm
  · simp only [if_neg hms]
    obtain ⟨stA, hrunA, hcircsA, hcbufA, hcsizeA, hnidA⟩ :=
      mat_phase_noresize s (not_ne_iff.mp hms) hwfm hwfmn
    simp only [hrunA, Option.some_bind]
    by_cases hcs : s.scene.all_circles.length ≠ s.circle_buffer_size
    · have hcond : stA.app.scene.all_circles.length ≠ stA.app.circle_buffer_size := by
        rw [hcircsA, hcsizeA]
        exact hcs
      simp only [if_pos hcond]
      obtain ⟨stB, bB, hrunB, hmatsB, hmbufB, hmsizeB, hcsizeB, hcbufB, hcapB,
        hidB, hptB, hcleanB⟩ := circ_phase_resize s stA hcircsA
      simp only [hrunB, Option.some_bind]
      obtain ⟨hpScene, hpMBuf, hpMSize, hpCBuf, hpCSize⟩ := final_pack hl stB
      refine ⟨_, _, rfl, fun hms2 => absurd hms2 hms, ?_⟩
      intro _
      refine ⟨hpCSize.trans hcsizeB, bB, hpCBuf.trans hcbufB, hcapB, ?_, ?_, ?_⟩
      · intro ob hob
        rw [hidB, (hnidA : stA.app.next_buffer_id = s.next_buffer_id)]
        exact Nat.ne_of_lt (hwfc ob hob).2.2
      · intro i c hi
        obtain ⟨hbd, hsc⟩ := hptB i c hi
        refine ⟨hbd, ?_⟩
        rw [hpScene]
        exact hsc
      · intro c hc
        rw [hpScene] at hc
        exact hcleanB c hc
    · have hcond : ¬(stA.app.scene.all_circles.length ≠ stA.app.circle_buffer_size) := by
        simp only [hcircsA, hcsizeA]
        exact hcs
      simp only [if_neg hcond]
      obtain ⟨stB, hrunB, hmatsB, hmbufB, hmsizeB⟩ :=
        circ_phase_noresize s stA (not_ne_iff.mp hcond) hcbufA hcsizeA hwfc hwfcn
      simp only [hrunB, Option.some_bind]
      refine ⟨_, _, rfl, fun hms2 => absurd hms2 hms, fun hcs2 => absurd hcs2 hcs⟩

theorem check_buffers_resize_rewrites_all_witness :
    oneEachApp.buffers_wf ∧
    (∃ s2 w, check_buffers writes_ok true oneEachApp = some (s2, w)) :=
  ⟨⟨by simp [oneEachApp, AppState.create], by simp [oneEachApp, AppState.create],
    by simp [oneEachApp, AppState.create], by simp [oneEachApp, AppState.create]⟩,
    (check_buffers_resize_rewrites_all true oneEachApp
      ⟨by simp [oneEachApp, AppState.create], by simp [oneEachApp, AppState.create],
        by simp [oneEachApp, AppState.create], by simp [oneEachApp, AppState.create]⟩).imp
      (fun s2 h => h.imp (fun w h2 => h2.1))⟩

theorem check_buffers_clean_noop_witness :
    (∀ m ∈ oneMaterialSynced.scene.all_materials, m.dirty = false) ∧
    (∀ c ∈ oneMaterialSynced.scene.all_circles, c.dirty = false) ∧
    oneMaterialSynced.scene.all_materials.length = oneMaterialSynced.material_buffer_size ∧
    oneMaterialSynced.scene.all_circles.length = oneMaterialSynced.circle_buffer_size ∧
    check_buffers writes_ok true oneMaterialSynced = some (oneMaterialSynced, 0) :=
  ⟨by decide, by decide, by decide, by decide,
    (check_buffers_clean_noop writes_ok true oneMaterialSynced
      (by decide) (by decide) (by decide) (by decide)).1⟩

theorem check_buffers_capacity_exact_witness :
    oneMaterialApp.buffers_wf ∧
    check_buffers writes_ok true oneMaterialApp = some (oneMaterialSynced, 1) ∧
    oneMaterialSynced.material_buffer_size = oneMaterialApp.scene.all_materials.length :=
  ⟨⟨by simp [oneMaterialApp, AppState.create], by simp [oneMaterialApp, AppState.create],
    by simp [oneMaterialApp, AppState.create], by simp [oneMaterialApp, AppState.create]⟩,
   by rfl,
   (check_buffers_capacity_exact writes_ok true oneMaterialApp oneMaterialSynced 1
      ⟨by simp [oneMaterialApp, AppState.create], by simp [oneMaterialApp, AppState.create],
        by simp [oneMaterialApp, AppState.create], by simp [oneMaterialApp, AppState.create]⟩
      (by rfl)).1⟩

end RayDemo
